import Mathlib

/-
  Verification of the RGPUtils logging component (src/include/rgp/Log.h).

  The repository ships only the header: it declares the class rgp::Log
  (loglevel state, print/printv/error/errorWithErrno, getline/getc,
  useLogfile/useErrorfile) together with documentation, but the member
  function bodies live in a translation unit that is not part of src/.
  The behavioural definitions below are therefore modelled from the spec,
  faithful to its words, over an explicit-state embedding:
  - the singleton's mutable members become fields of a `Log` record;
  - a write call returns the list of output events it emits, each event
    tagged with the destination (standard stream or file path);
  - the standard input stream is a list of characters threaded through
    the interactive calls;
  - the filesystem is abstracted by an oracle `canOpen : String → Bool`
    saying whether a path can be opened/created for append, and the
    platform errno decoder by an abstract `strerror : Int → String`.
-/

namespace RGPUtils

/-- Loglevel enum from src/include/rgp/Log.h lines 77-84:
LoglevelOff = 0, LoglevelNormal, LoglevelVerbose. -/
inductive Loglevel : Type
  | LoglevelOff
  | LoglevelNormal
  | LoglevelVerbose
deriving DecidableEq, Repr

/-- Numeric value of each enum constant (uint8_t values 0, 1, 2 in the
source); the level gate compares levels through these values. -/
def Loglevel.toNat : Loglevel → Nat
  | .LoglevelOff => 0
  | .LoglevelNormal => 1
  | .LoglevelVerbose => 2

/-- Destination of one emitted line: the standard output stream, the
standard error stream, or a file identified by its path. -/
inductive Target : Type
  | stdoutStream
  | stderrStream
  | fileAt (path : String)
deriving DecidableEq, Repr

/-- One output event: the destination together with the exact bytes
written there. -/
abbrev OutputEvent := Target × String

/-- Modelled from the spec: the error taxonomy of §7; `FileOpenError`
is reported when a sink file could not be opened/created. The source
header only declares a generic `LogException` carrying a string; the
specific error kind comes from the spec. -/
inductive LogError : Type
  | FileOpenError
deriving DecidableEq, Repr

/-- State of the singleton logger: the private members of class Log
(src/include/rgp/Log.h lines 217-231) with their member initializers as
defaults. The two mutexes are synchronization devices with no bearing on
the sequential input/output behaviour modelled here and carry no data. -/
structure Log where
  _logLevel : Loglevel := .LoglevelNormal
  _hasLogfile : Bool := false
  _logFilePath : String := ""
  _hasErrorfile : Bool := false
  _errorFilePath : String := ""
deriving DecidableEq, Repr

/-- The state of the shared singleton as first created: default member
initializers of class Log (level Normal, no logfile, no errorfile). -/
def Log.sharedLog : Log := {}

/-- Current destination of informational writes: the logfile when one
was successfully configured, std::cout otherwise. -/
def Log.infoTarget (l : Log) : Target :=
  if l._hasLogfile then Target.fileAt l._logFilePath else Target.stdoutStream

/-- Current destination of error writes: the errorfile when one was
successfully configured, std::cerr otherwise. -/
def Log.errorTarget (l : Log) : Target :=
  if l._hasErrorfile then Target.fileAt l._errorFilePath else Target.stderrStream

/-- Returns the current loglevel (accessor declared at Log.h line 102). -/
def Log.loglevel (l : Log) : Loglevel := l._logLevel

/-- Sets a new loglevel (setter declared at Log.h line 112); replaces
the `_logLevel` member and nothing else. -/
def Log.setLoglevel (l : Log) (level : Loglevel) : Log :=
  { l with _logLevel := level }

/-- Modelled from the spec: the body of Log::print is not in src (the
header declares it at line 122). Per spec §4.2, if the level is at least
Normal it writes the text followed by a line terminator to the current
info sink; if the level is Off it is a no-op emitting nothing. -/
def Log.print (l : Log) (text : String) : List OutputEvent :=
  if Loglevel.LoglevelNormal.toNat ≤ l._logLevel.toNat then
    [(l.infoTarget, text ++ "\n")]
  else []

/-- Modelled from the spec: the body of Log::printv is not in src (the
header declares it at line 132). Identical to print but gated on the
level being at least Verbose. -/
def Log.printv (l : Log) (text : String) : List OutputEvent :=
  if Loglevel.LoglevelVerbose.toNat ≤ l._logLevel.toNat then
    [(l.infoTarget, text ++ "\n")]
  else []

/-- Modelled from the spec: the body of Log::error is not in src (the
header declares it at line 165). Per spec §4.2 it always writes, with no
level gating: the text plus a line terminator goes to the current error
sink. -/
def Log.error (l : Log) (text : String) : List OutputEvent :=
  [(l.errorTarget, text ++ "\n")]

/-- Modelled from the spec: the body of Log::errorWithErrno is not in
src (the header declares it at line 177). Per spec §4.2 it behaves like
error after appending the decoded errno message to the text, joined by
the separator.  The platform errno decoder is passed in as `strerror`. -/
def Log.errorWithErrno (strerror : Int → String) (l : Log) (text : String)
    (err : Int) : List OutputEvent :=
  [(l.errorTarget, text ++ ": " ++ strerror err ++ "\n")]

/-- Modelled from the spec: the body of Log::useLogfile is not in src
(the header declares it at line 187). Per spec §4.1, it attempts to
open/create the file at the path for append (abstracted by the `canOpen`
oracle); on success subsequent informational writes go to that file;
on failure it reports FileOpenError and leaves the previous sink
configuration unchanged. -/
def Log.useLogfile (canOpen : String → Bool) (l : Log) (filePath : String) :
    Option LogError × Log :=
  if canOpen filePath then
    (none, { l with _hasLogfile := true, _logFilePath := filePath })
  else
    (some LogError.FileOpenError, l)

/-- Modelled from the spec: the body of Log::useErrorfile is not in src
(the header declares it at line 197). Symmetric to useLogfile, governing
the error sink. -/
def Log.useErrorfile (canOpen : String → Bool) (l : Log) (filePath : String) :
    Option LogError × Log :=
  if canOpen filePath then
    (none, { l with _hasErrorfile := true, _errorFilePath := filePath })
  else
    (some LogError.FileOpenError, l)

/-- The line terminator character. -/
def newlineChar : Char := Char.ofNat 10

/-- Reads one line from a character stream: the characters up to (and
not including) the first line terminator, together with the remainder of
the stream after that terminator. -/
def readLineChars : List Char → List Char × List Char
  | [] => ([], [])
  | c :: rest =>
    if c = newlineChar then ([], rest)
    else
      let p := readLineChars rest
      (c :: p.1, p.2)

/-- Modelled from the spec: the body of Log::getline is not in src (the
header declares it at line 144). Per spec §4.3, it writes the prompt to
the info sink without a trailing line terminator, reads a full line from
the standard input stream, and returns that line with its terminator
stripped.  Result: (output events, returned line, remaining input). -/
def Log.getline (l : Log) (text : String) (input : List Char) :
    List OutputEvent × String × List Char :=
  let p := readLineChars input
  ([(l.infoTarget, text)], String.mk p.1, p.2)

/-- Modelled from the spec: the body of Log::getc is not in src (the
header declares it at line 156). Same contract as getline but reading
exactly one character; at end-of-input it reports the end-of-input
condition, modelled as the sentinel `none`, instead of a character. -/
def Log.getc (l : Log) (text : String) (input : List Char) :
    List OutputEvent × Option Char × List Char :=
  match input with
  | [] => ([(l.infoTarget, text)], none, [])
  | c :: rest => ([(l.infoTarget, text)], some c, rest)

/-- C1: for every level L set via the level setter and every text, print
produces output iff L is Normal or Verbose, and printv produces output
iff L is Verbose; when suppressed the call emits nothing. -/
theorem print_printv_level_gate (l : Log) (L : Loglevel) (text : String) :
    (((l.setLoglevel L).print text ≠ []) ↔
      (L = Loglevel.LoglevelNormal ∨ L = Loglevel.LoglevelVerbose)) ∧
    (((l.setLoglevel L).printv text ≠ []) ↔ L = Loglevel.LoglevelVerbose) := by
  cases L <;>
    simp [Log.setLoglevel, Log.print, Log.printv, Loglevel.toNat]

/-- C2: for every level L, including Off, error and errorWithErrno emit
exactly one line, and it goes to the error sink; the level gate never
suppresses error-kind writes. -/
theorem error_unaffected_by_level (l : Log) (L : Loglevel)
    (strerror : Int → String) (text : String) (err : Int) :
    ((l.setLoglevel L).error text = [(l.errorTarget, text ++ "\n")]) ∧
    ((l.setLoglevel L).errorWithErrno strerror text err =
      [(l.errorTarget, text ++ ": " ++ strerror err ++ "\n")]) := by
  cases L <;>
    simp [Log.setLoglevel, Log.error, Log.errorWithErrno, Log.errorTarget]

/-- C3: when the path cannot be opened for append, useLogfile reports
FileOpenError and leaves the previous info-sink configuration unchanged,
so a subsequent print still reaches the previous target. -/
theorem useLogfile_failure_atomic (l : Log) (canOpen : String → Bool)
    (path text : String) (h : canOpen path = false) :
    (l.useLogfile canOpen path = (some LogError.FileOpenError, l)) ∧
    ((l.useLogfile canOpen path).2.print text = l.print text) := by
  simp [Log.useLogfile, h]

/-- Witness for C3 at a concrete input: the all-rejecting filesystem
oracle, the fresh singleton state and the path "p". -/
theorem useLogfile_failure_atomic_witness :
    ((fun _ : String => false) "p" = false) ∧
    ((Log.sharedLog.useLogfile (fun _ => false) "p" =
        (some LogError.FileOpenError, Log.sharedLog)) ∧
      ((Log.sharedLog.useLogfile (fun _ => false) "p").2.print "x" =
        Log.sharedLog.print "x")) :=
  ⟨rfl, useLogfile_failure_atomic Log.sharedLog (fun _ => false) "p" "x" rfl⟩

/-- C4: after useLogfile succeeds for a path, every informational write
goes exclusively to that file and no longer to the standard output
stream, while the error sink and error-kind writes are unchanged; and
symmetrically for useErrorfile and the info sink. -/
theorem useLogfile_redirects_info (l : Log) (canOpen : String → Bool)
    (path text : String) (h : canOpen path = true) :
    ((l.useLogfile canOpen path).1 = none) ∧
    ((l.useLogfile canOpen path).2.infoTarget = Target.fileAt path) ∧
    (∀ e ∈ (l.useLogfile canOpen path).2.print text,
      e.1 = Target.fileAt path) ∧
    (∀ e ∈ (l.useLogfile canOpen path).2.printv text,
      e.1 = Target.fileAt path) ∧
    (Target.fileAt path ≠ Target.stdoutStream) ∧
    ((l.useLogfile canOpen path).2.errorTarget = l.errorTarget) ∧
    ((l.useLogfile canOpen path).2.error text = l.error text) ∧
    ((l.useErrorfile canOpen path).2.errorTarget = Target.fileAt path) ∧
    ((l.useErrorfile canOpen path).2.infoTarget = l.infoTarget) ∧
    ((l.useErrorfile canOpen path).2.print text = l.print text) := by
  refine ⟨?_, ?_, ?_, ?_, ?_, ?_, ?_, ?_, ?_, ?_⟩ <;>
    simp [Log.useLogfile, Log.useErrorfile, Log.print, Log.printv,
      Log.error, Log.infoTarget, Log.errorTarget, h]

/-- Witness for C4 at a concrete input: the all-accepting filesystem
oracle, the fresh singleton state, the path "p" and the text "x". -/
theorem useLogfile_redirects_info_witness :
    ((fun _ : String => true) "p" = true) ∧
    (((Log.sharedLog.useLogfile (fun _ => true) "p").1 = none) ∧
      ((Log.sharedLog.useLogfile (fun _ => true) "p").2.infoTarget =
        Target.fileAt "p") ∧
      (∀ e ∈ (Log.sharedLog.useLogfile (fun _ => true) "p").2.print "x",
        e.1 = Target.fileAt "p") ∧
      (∀ e ∈ (Log.sharedLog.useLogfile (fun _ => true) "p").2.printv "x",
        e.1 = Target.fileAt "p") ∧
      (Target.fileAt "p" ≠ Target.stdoutStream) ∧
      ((Log.sharedLog.useLogfile (fun _ => true) "p").2.errorTarget =
        Log.sharedLog.errorTarget) ∧
      ((Log.sharedLog.useLogfile (fun _ => true) "p").2.error "x" =
        Log.sharedLog.error "x") ∧
      ((Log.sharedLog.useErrorfile (fun _ => true) "p").2.errorTarget =
        Target.fileAt "p") ∧
      ((Log.sharedLog.useErrorfile (fun _ => true) "p").2.infoTarget =
        Log.sharedLog.infoTarget) ∧
      ((Log.sharedLog.useErrorfile (fun _ => true) "p").2.print "x" =
        Log.sharedLog.print "x")) :=
  ⟨rfl, useLogfile_redirects_info Log.sharedLog (fun _ => true) "p" "x" rfl⟩

/-- C5: for every text and errno code, errorWithErrno emits exactly the
caller text, then the separator, then the platform's decoded errno
message, then the line terminator, on the error sink; the decoded
message is always present. -/
theorem errorWithErrno_appends_strerror (l : Log) (strerror : Int → String)
    (text : String) (err : Int) :
    l.errorWithErrno strerror text err =
      [(l.errorTarget, text ++ ": " ++ strerror err ++ "\n")] := rfl

/-- C6: every write that produces output emits exactly the caller text
verbatim followed by one line terminator — print and printv either emit
nothing or that single line, and error always emits that single line;
nothing else is added. -/
theorem output_text_verbatim_plus_terminator (l : Log) (text : String) :
    (l.print text = [] ∨ l.print text = [(l.infoTarget, text ++ "\n")]) ∧
    (l.printv text = [] ∨ l.printv text = [(l.infoTarget, text ++ "\n")]) ∧
    (l.error text = [(l.errorTarget, text ++ "\n")]) := by
  refine ⟨?_, ?_, rfl⟩
  · unfold Log.print
    split <;> simp
  · unfold Log.printv
    split <;> simp

/-- Helper for C7: reading one line from a stream that starts with a
terminator-free line followed by a terminator yields exactly that line
and the rest of the stream. -/
theorem readLineChars_append (lineChars rest : List Char)
    (h : newlineChar ∉ lineChars) :
    readLineChars (lineChars ++ newlineChar :: rest) = (lineChars, rest) := by
  induction lineChars with
  | nil => simp [readLineChars]
  | cons c cs ih =>
    simp only [List.mem_cons, not_or] at h
    have hc : ¬c = newlineChar := fun hc => h.1 hc.symm
    simp [readLineChars, hc, ih h.2]

/-- C7: getline writes the prompt to the info sink without a trailing
line terminator, consumes the input up to and including the first line
terminator, and returns that line with the terminator stripped. -/
theorem getline_prompt_and_line (l : Log) (text : String)
    (lineChars rest : List Char) (h : newlineChar ∉ lineChars) :
    l.getline text (lineChars ++ newlineChar :: rest) =
      ([(l.infoTarget, text)], String.mk lineChars, rest) := by
  simp [Log.getline, readLineChars_append lineChars rest h]

/-- Witness for C7 at a concrete input: prompt "p", line "hi", remaining
input "z". -/
theorem getline_prompt_and_line_witness :
    (newlineChar ∉ (['h', 'i'] : List Char)) ∧
    (Log.sharedLog.getline "p" (['h', 'i'] ++ newlineChar :: ['z']) =
      ([(Log.sharedLog.infoTarget, "p")], String.mk ['h', 'i'], ['z'])) :=
  ⟨by decide,
    getline_prompt_and_line Log.sharedLog "p" ['h', 'i'] ['z'] (by decide)⟩

/-- C8: at end-of-input, getc returns the well-defined end-of-input
sentinel rather than a character — the call is a total function of the
state and the input, so it cannot hang — and it still writes the
prompt. -/
theorem getc_eof_sentinel (l : Log) (text : String) :
    ((l.getc text []).2.1 = none) ∧
    ((l.getc text []).1 = [(l.infoTarget, text)]) := ⟨rfl, rfl⟩

/-- C10: for every level L, including Off, getline and getc behave
identically to the unset-level state: they still write the prompt to the
info sink and still perform the read; the log level does not gate the
interactive input calls. -/
theorem input_calls_unaffected_by_level (l : Log) (L : Loglevel)
    (text : String) (input : List Char) :
    ((l.setLoglevel L).getline text input = l.getline text input) ∧
    ((l.setLoglevel L).getc text input = l.getc text input) ∧
    (((l.setLoglevel L).getline text input).1 = [(l.infoTarget, text)]) ∧
    (((l.setLoglevel L).getc text input).1 = [(l.infoTarget, text)]) := by
  cases input <;>
    simp [Log.setLoglevel, Log.getline, Log.getc, Log.infoTarget]

end RGPUtils
